import Mathlib

set_option maxHeartbeats 1000000

/- Shallow embedding of the yondo-video-server download endpoint.

   Three revisions of the same Express handler exist in the repository:
   the baseline streaming revision (src/index.js, suffix A), the
   signal-handling streaming revision (src/unnamed/part_001, suffix B)
   and the readiness-gated base64-encoding revision
   (src/unnamed/part_002, suffix C).  Each handler is modelled as a pure
   function from an environment record - the outcomes of the external
   yt-dlp subprocesses and of the file-system calls, which the code only
   observes - to an outcome record: the HTTP response, the ordered list
   of observable effects, and whether the temp file is still on disk
   after the request finishes. -/

/-- Observable effects of one request, listed in program order. -/
inductive Ev where
  | spawnProbe
  | spawnDownload
  | spawnCheck
  | writeHead
  | streamEnd
  | streamError
  | unlinkFile
  | respond
  | addSignalListeners
  | removeSignalListeners
deriving DecidableEq, Repr

/-- Decimal digit character, mirroring how a JS template literal renders
one digit of a number. -/
def digitChar10 (d : Nat) : Char := Char.ofNat (48 + d)

/-- Little-endian decimal digits of a natural number, driven by a fuel
argument so that the definition is structurally recursive (the fuel is
instantiated with the number itself, which bounds the digit count). -/
def decDigitsAux : Nat → Nat → List Nat
  | _, 0 => []
  | 0, _ + 1 => []
  | f + 1, n + 1 => (n + 1) % 10 :: decDigitsAux f ((n + 1) / 10)

/-- Little-endian decimal digits of a natural number. -/
def decDigitsLE (n : Nat) : List Nat := decDigitsAux n n

/-- Value of a little-endian decimal digit list. -/
def decValLE : List Nat → Nat
  | [] => 0
  | d :: ds => d + 10 * decValLE ds

/-- Rendering of a natural number as JS string interpolation does:
most significant digit first, with 0 rendered as the single digit 0. -/
def decRender (n : Nat) : List Char :=
  if n = 0 then ['0'] else (decDigitsLE n).reverse.map digitChar10

/-- Numeric value of a decimal digit character. -/
def charVal10 (c : Char) : Nat := c.toNat - 48

/-- Decoder for `decRender`, used to prove it injective. -/
def decValue (cs : List Char) : Nat := decValLE ((cs.map charVal10).reverse)

theorem decValLE_decDigitsAux (f n : Nat) (h : n ≤ f) :
    decValLE (decDigitsAux f n) = n := by
  induction f generalizing n with
  | zero =>
    interval_cases n
    simp [decDigitsAux, decValLE]
  | succ f ih =>
    cases n with
    | zero => simp [decDigitsAux, decValLE]
    | succ m =>
      rw [decDigitsAux, decValLE,
        ih ((m + 1) / 10) (by
          have h1 : (m + 1) / 10 < m + 1 := Nat.div_lt_self (Nat.succ_pos m) (by decide)
          omega)]
      exact Nat.mod_add_div (m + 1) 10

theorem decValLE_decDigitsLE (n : Nat) : decValLE (decDigitsLE n) = n :=
  decValLE_decDigitsAux n n (Nat.le_refl n)

theorem decDigitsAux_lt_ten (f n : Nat) : ∀ d ∈ decDigitsAux f n, d < 10 := by
  induction f generalizing n with
  | zero =>
    cases n <;> simp [decDigitsAux]
  | succ f ih =>
    cases n with
    | zero => simp [decDigitsAux]
    | succ m =>
      intro d hd
      rw [decDigitsAux] at hd
      rcases List.mem_cons.mp hd with h | h
      · subst h; exact Nat.mod_lt _ (by decide)
      · exact ih _ d h

theorem charVal10_digitChar10 {d : Nat} (h : d < 10) :
    charVal10 (digitChar10 d) = d := by
  interval_cases d <;> decide

theorem map_charVal10_digitChar10 (ds : List Nat) (h : ∀ d ∈ ds, d < 10) :
    (ds.map digitChar10).map charVal10 = ds := by
  induction ds with
  | nil => rfl
  | cons d ds ih =>
    simp only [List.map_cons, List.cons.injEq]
    exact ⟨charVal10_digitChar10 (h d (List.mem_cons_self d ds)),
      ih fun x hx => h x (List.mem_cons_of_mem d hx)⟩

theorem decValue_decRender (n : Nat) : decValue (decRender n) = n := by
  by_cases h : n = 0
  · subst h; decide
  · rw [decRender, if_neg h, decValue, map_charVal10_digitChar10]
    · rw [List.reverse_reverse]
      exact decValLE_decDigitsLE n
    · intro d hd
      exact decDigitsAux_lt_ten n n d (List.mem_reverse.mp hd)

theorem decRender_injective {a b : Nat} (h : decRender a = decRender b) : a = b := by
  have := congrArg decValue h
  rwa [decValue_decRender, decValue_decRender] at this

/-- Hexadecimal digit character as produced by Node Buffer.toString with
the hex encoding: 0-9 then lowercase a-f. -/
def hexDigitChar (d : Nat) : Char :=
  Char.ofNat (if d < 10 then 48 + d else 87 + d)

/-- Numeric value of a lowercase hexadecimal digit character. -/
def hexCharVal (c : Char) : Nat :=
  if 97 ≤ c.toNat then c.toNat - 87 else c.toNat - 48

/-- Two-character lowercase hex rendering of one byte. -/
def byteHex (b : Nat) : List Char := [hexDigitChar (b / 16), hexDigitChar (b % 16)]

/-- Lowercase hex rendering of a byte list, as crypto.randomBytes(16)
.toString chains with the hex encoding produce. -/
def hexRender : List Nat → List Char
  | [] => []
  | b :: bs => byteHex b ++ hexRender bs

/-- Decoder for `hexRender`, used to prove it injective on byte lists. -/
def hexBytes : List Char → List Nat
  | c1 :: c2 :: cs => (16 * hexCharVal c1 + hexCharVal c2) :: hexBytes cs
  | _ => []

theorem hexCharVal_hexDigitChar {d : Nat} (h : d < 16) :
    hexCharVal (hexDigitChar d) = d := by
  interval_cases d <;> decide

theorem hexBytes_hexRender (bs : List Nat) (h : ∀ b ∈ bs, b < 256) :
    hexBytes (hexRender bs) = bs := by
  induction bs with
  | nil => rfl
  | cons b bs ih =>
    have hb : b < 256 := h b (List.mem_cons_self b bs)
    have hdiv : b / 16 < 16 := by omega
    have hmod : b % 16 < 16 := Nat.mod_lt _ (by decide)
    rw [hexRender, byteHex, List.cons_append, List.cons_append, List.nil_append,
      hexBytes, hexCharVal_hexDigitChar hdiv, hexCharVal_hexDigitChar hmod,
      ih fun x hx => h x (List.mem_cons_of_mem b hx)]
    congr 1
    exact Nat.div_add_mod b 16

theorem hexRender_injective {a b : List Nat}
    (ha : ∀ x ∈ a, x < 256) (hb : ∀ x ∈ b, x < 256)
    (h : hexRender a = hexRender b) : a = b := by
  have := congrArg hexBytes h
  rwa [hexBytes_hexRender a ha, hexBytes_hexRender b hb] at this

/-- Temp directory path. The source computes path.join(dirname, 'temp');
the absolute prefix is deployment-dependent, so the model fixes the
shared directory abstractly, which is common to all three revisions. -/
def tempDir : String := "temp"

/-- Character-level artifact filename of the streaming revisions:
crypto.randomBytes(16).toString with hex encoding, then the .mp4 suffix
(src/index.js line 158, src/unnamed/part_001 line 185). -/
def filenameCharsA (bs : List Nat) : List Char := hexRender bs ++ ".mp4".data

/-- Artifact filename of the streaming revisions, as a string. -/
def filenameA (bs : List Nat) : String := String.mk (filenameCharsA bs)

/-- Character-level artifact path of the streaming revisions:
path.join(tempDir, filename). -/
def outputPathCharsA (bs : List Nat) : List Char := "temp/".data ++ filenameCharsA bs

/-- Artifact path of the streaming revisions, as a string. -/
def outputPathA (bs : List Nat) : String := String.mk (outputPathCharsA bs)

/-- Content-Disposition header value written by the streaming revisions
(src/index.js line 206, src/unnamed/part_001 line 233). -/
def contentDispositionA (bs : List Nat) : String :=
  "attachment; filename=\"" ++ filenameA bs ++ "\""

/-- Truthiness test applied to the url field of the request body: JS
`!url` is true exactly when the field is absent or the empty string. -/
def urlMissing : Option String → Bool
  | none => true
  | some s => s == ""

/-- Environment of one request against a streaming revision: the url
field of the body plus every outcome of the external processes and
file-system calls that the handler observes. The stderr fields are data
the handler receives but only writes to the console log. -/
structure EnvS where
  url : Option String
  probeOk : Bool
  probeStderr : String
  title : String
  randBytes : List Nat
  spawnErr : Bool
  spawnErrMsg : String
  exitCode : Nat
  fileOnDisk : Bool
  fileSize : Nat
  streamEndsOk : Bool
  unlinkOk : Bool
  dlStderr : String
deriving Repr

/-- Headers written by res.writeHead on the streaming success path. -/
structure StreamHeaders where
  contentType : String
  contentLength : Nat
  contentDisposition : String
deriving DecidableEq, Repr

/-- Response of a streaming revision, one constructor per res.* call
shape that the handler can perform. -/
inductive RespS where
  | badRequest
  | streamOk (h : StreamHeaders)
  | streamBroken (h : StreamHeaders)
  | serverError (details : String)
deriving DecidableEq, Repr

/-- HTTP status code of a streaming-revision response. -/
def statusS : RespS → Nat
  | .badRequest => 400
  | .streamOk _ => 200
  | .streamBroken _ => 200
  | .serverError _ => 500

/-- Whether a streaming-revision response has a JSON body (rather than
binary stream output). -/
def isJsonS : RespS → Bool
  | .badRequest => true
  | .serverError _ => true
  | _ => false

/-- Outcome of one request against a streaming revision. -/
structure OutS where
  resp : RespS
  events : List Ev
  fileRemains : Bool
  pathChosen : Bool
deriving DecidableEq, Repr

/-- Baseline streaming handler, src/index.js lines 127-254. Control
flow: validate url, probe the title, pick a random filename, run the
download command, check existence, stream with writeHead; the catch
block unlinks an existing artifact and answers 500; the read stream
error handler only logs (headers are already sent) and does not unlink;
the end handler unlinks, logging any unlink error. -/
def runA (e : EnvS) : OutS :=
  if urlMissing e.url then
    { resp := .badRequest, events := [.respond], fileRemains := false,
      pathChosen := false }
  else if e.probeOk = false then
    { resp := .serverError "Invalid or inaccessible video URL",
      events := [.spawnProbe, .respond], fileRemains := false,
      pathChosen := false }
  else if e.spawnErr then
    { resp := .serverError e.spawnErrMsg,
      events := [.spawnProbe, .spawnDownload] ++
        (if e.fileOnDisk then [.unlinkFile] else []) ++ [.respond],
      fileRemains := e.fileOnDisk && !e.unlinkOk, pathChosen := true }
  else if e.exitCode ≠ 0 then
    { resp := .serverError ("Process exited with code " ++ toString e.exitCode),
      events := [.spawnProbe, .spawnDownload] ++
        (if e.fileOnDisk then [.unlinkFile] else []) ++ [.respond],
      fileRemains := e.fileOnDisk && !e.unlinkOk, pathChosen := true }
  else if e.fileOnDisk = false then
    { resp := .serverError "Video file not found after download",
      events := [.spawnProbe, .spawnDownload, .respond],
      fileRemains := false, pathChosen := true }
  else if e.streamEndsOk then
    { resp := .streamOk ⟨"video/mp4", e.fileSize, contentDispositionA e.randBytes⟩,
      events := [.spawnProbe, .spawnDownload, .writeHead, .streamEnd, .unlinkFile],
      fileRemains := !e.unlinkOk, pathChosen := true }
  else
    { resp := .streamBroken ⟨"video/mp4", e.fileSize, contentDispositionA e.randBytes⟩,
      events := [.spawnProbe, .spawnDownload, .writeHead, .streamError],
      fileRemains := true, pathChosen := true }

/-- Signal-handling streaming handler, src/unnamed/part_001 lines
127-278. Same pipeline as the baseline, with three differences: SIGTERM
and SIGINT listeners are registered at the top before url validation
and removed on the stream-end and catch paths; cleanup goes through a
shared once-only function that unlinks an existing artifact; the read
stream error handler also calls that cleanup (but does not remove the
listeners). -/
def runB (e : EnvS) : OutS :=
  if urlMissing e.url then
    { resp := .badRequest, events := [.addSignalListeners, .respond],
      fileRemains := false, pathChosen := false }
  else if e.probeOk = false then
    { resp := .serverError "Invalid or inaccessible video URL",
      events := [.addSignalListeners, .spawnProbe, .respond, .removeSignalListeners],
      fileRemains := false, pathChosen := false }
  else if e.spawnErr then
    { resp := .serverError e.spawnErrMsg,
      events := [.addSignalListeners, .spawnProbe, .spawnDownload] ++
        (if e.fileOnDisk then [.unlinkFile] else []) ++
        [.respond, .removeSignalListeners],
      fileRemains := e.fileOnDisk && !e.unlinkOk, pathChosen := true }
  else if e.exitCode ≠ 0 then
    { resp := .serverError ("Process exited with code " ++ toString e.exitCode),
      events := [.addSignalListeners, .spawnProbe, .spawnDownload] ++
        (if e.fileOnDisk then [.unlinkFile] else []) ++
        [.respond, .removeSignalListeners],
      fileRemains := e.fileOnDisk && !e.unlinkOk, pathChosen := true }
  else if e.fileOnDisk = false then
    { resp := .serverError "Video file not found after download",
      events := [.addSignalListeners, .spawnProbe, .spawnDownload, .respond,
        .removeSignalListeners],
      fileRemains := false, pathChosen := true }
  else if e.streamEndsOk then
    { resp := .streamOk ⟨"video/mp4", e.fileSize, contentDispositionA e.randBytes⟩,
      events := [.addSignalListeners, .spawnProbe, .spawnDownload, .writeHead,
        .streamEnd, .unlinkFile, .removeSignalListeners],
      fileRemains := !e.unlinkOk, pathChosen := true }
  else
    { resp := .streamBroken ⟨"video/mp4", e.fileSize, contentDispositionA e.randBytes⟩,
      events := [.addSignalListeners, .spawnProbe, .spawnDownload, .writeHead,
        .streamError, .unlinkFile],
      fileRemains := !e.unlinkOk, pathChosen := true }

/-- Character-level artifact path of the encoded revision:
path.join(tempDir, the string video- then Date.now() then .mp4)
(src/unnamed/part_002 lines 194-195). -/
def tempFilePathCharsC (t : Nat) : List Char :=
  "temp/video-".data ++ decRender t ++ ".mp4".data

/-- Artifact path of the encoded revision, as a string. -/
def tempFilePathC (t : Nat) : String := String.mk (tempFilePathCharsC t)

/-- Download command line built by the encoded revision
(src/unnamed/part_002 line 199). -/
def commandC (url : String) (t : Nat) : String :=
  "yt-dlp -f \"best[ext=mp4]\" \"" ++ url ++ "\" -o \"" ++ tempFilePathC t
    ++ "\" --no-playlist"

/-- Message of the error that promisified child_process.exec rejects
with when the command exits non-zero. This models the documented Node
contract: the message is the text Command failed followed by the
command line and the captured stderr. -/
def execFailMsg (cmd stderrText : String) : String :=
  "Command failed: " ++ cmd ++ "\n" ++ stderrText

/-- Environment of one request against the encoded revision
(src/unnamed/part_002): the readiness flag, the url field, and every
outcome of the external processes and file-system calls the handler
observes. -/
structure EnvC where
  ready : Bool
  checkOk : Bool
  url : Option String
  verOk : Bool
  verStr : String
  locStr : String
  verErrMsg : String
  preCheckOk : Bool
  preCheckErrMsg : String
  timestamp : Nat
  dlOk : Bool
  dlStderr : String
  fileOnDisk : Bool
  fileSize : Nat
  statErrMsg : String
  readOk : Bool
  readErrMsg : String
  unlinkOk : Bool
  payload : String
deriving Repr

/-- Response of the encoded revision, one constructor per res.* call
shape the handler can perform. -/
inductive RespC where
  | notReady (ytDlpInstalled : Bool)
  | badRequest
  | versionInfo (version loc : String)
  | versionFail (details : String)
  | preCheckFail (details : String)
  | dlFail (details command : String)
  | verifyFail (details : String)
  | readFail (details : String)
  | encoded (videoUrl : String)
deriving DecidableEq, Repr

/-- HTTP status code of an encoded-revision response. -/
def statusC : RespC → Nat
  | .notReady _ => 503
  | .badRequest => 400
  | .versionInfo _ _ => 200
  | .encoded _ => 200
  | .versionFail _ => 500
  | .preCheckFail _ => 500
  | .dlFail _ _ => 500
  | .verifyFail _ => 500
  | .readFail _ => 500

/-- Details field of an encoded-revision error response body, when the
body carries one. -/
def detailsC : RespC → Option String
  | .versionFail d => some d
  | .preCheckFail d => some d
  | .dlFail d _ => some d
  | .verifyFail d => some d
  | .readFail d => some d
  | _ => none

/-- Outcome of one request against the encoded revision. -/
structure OutC where
  resp : RespC
  events : List Ev
  fileRemains : Bool
  pathChosen : Bool
deriving DecidableEq, Repr

/-- Encoded readiness-gated handler, src/unnamed/part_002 lines 122-260.
Control flow: when the readiness flag is down, run a yt-dlp presence
check and answer 503; validate the url; treat the literal url value
version as a tool introspection request; run a per-request yt-dlp
version check; build a timestamp-derived path and run the download
command, answering 500 without cleanup when it fails; stat the file,
answering 500 without cleanup when it is missing or empty; read the
file, answering 500 without cleanup when the read fails; on full
success unlink (logging unlink errors) and send the base64 JSON body. -/
def runC (e : EnvC) : OutC :=
  if e.ready = false then
    { resp := .notReady e.checkOk, events := [.spawnCheck, .respond],
      fileRemains := false, pathChosen := false }
  else if urlMissing e.url then
    { resp := .badRequest, events := [.respond], fileRemains := false,
      pathChosen := false }
  else if e.url = some "version" then
    if e.verOk then
      { resp := .versionInfo e.verStr e.locStr, events := [.spawnCheck, .respond],
        fileRemains := false, pathChosen := false }
    else
      { resp := .versionFail e.verErrMsg, events := [.spawnCheck, .respond],
        fileRemains := false, pathChosen := false }
  else if e.preCheckOk = false then
    { resp := .preCheckFail e.preCheckErrMsg, events := [.spawnCheck, .respond],
      fileRemains := false, pathChosen := false }
  else if e.dlOk = false then
    { resp := .dlFail (execFailMsg (commandC (e.url.getD "") e.timestamp) e.dlStderr)
        (commandC (e.url.getD "") e.timestamp),
      events := [.spawnCheck, .spawnDownload, .respond],
      fileRemains := e.fileOnDisk, pathChosen := true }
  else if e.fileOnDisk = false then
    { resp := .verifyFail e.statErrMsg,
      events := [.spawnCheck, .spawnDownload, .respond],
      fileRemains := false, pathChosen := true }
  else if e.fileSize = 0 then
    { resp := .verifyFail "Downloaded file is empty",
      events := [.spawnCheck, .spawnDownload, .respond],
      fileRemains := true, pathChosen := true }
  else if e.readOk = false then
    { resp := .readFail e.readErrMsg,
      events := [.spawnCheck, .spawnDownload, .respond],
      fileRemains := true, pathChosen := true }
  else
    { resp := .encoded ("data:video/mp4;base64," ++ e.payload),
      events := [.spawnCheck, .spawnDownload, .unlinkFile, .respond],
      fileRemains := !e.unlinkOk, pathChosen := true }

/-- Substring occurrence on character lists, used to state that a
response body carries a piece of process output verbatim. -/
def leadsWith : List Char → List Char → Bool
  | [], _ => true
  | _ :: _, [] => false
  | a :: as, b :: bs => a == b && leadsWith as bs

/-- Whether the first character list occurs contiguously inside the
second. -/
def occursIn (needle : List Char) : List Char → Bool
  | [] => leadsWith needle []
  | c :: t => leadsWith needle (c :: t) || occursIn needle t

theorem leadsWith_self (l : List Char) : leadsWith l l = true := by
  induction l with
  | nil => rfl
  | cons c t ih => simp [leadsWith, ih]

theorem occursIn_append_self (pre l : List Char) :
    occursIn l (pre ++ l) = true := by
  induction pre with
  | nil =>
    cases l with
    | nil => rfl
    | cons c t => simp [occursIn, leadsWith_self]
  | cons p ps ih =>
    rw [List.cons_append]
    simp only [occursIn, Bool.or_eq_true]
    exact Or.inr ih

/-- Occurrences of the unlink effect in an effect trace. -/
def unlinks : List Ev → Nat
  | [] => 0
  | .unlinkFile :: t => unlinks t + 1
  | _ :: t => unlinks t

/-- Headers carried by a streaming-revision response, when writeHead was
reached. -/
def headersS : RespS → Option StreamHeaders
  | .streamOk h => some h
  | .streamBroken h => some h
  | _ => none

/-- Per-request data from which each revision derives its artifact name:
the requested url, the Date.now() reading and the randomBytes draw. -/
structure ReqMeta where
  url : String
  timestampMs : Nat
  randBytes : List Nat
deriving DecidableEq, Repr

/-- Artifact path a streaming revision derives for a request. -/
def reqPathA (r : ReqMeta) : String := outputPathA r.randBytes

/-- Artifact path the encoded revision derives for a request. -/
def reqPathC (r : ReqMeta) : String := tempFilePathC r.timestampMs

/-- Fully successful streaming-revision environment. -/
def envS_ok : EnvS :=
  ⟨some "https://example.com/v", true, "", "Title", [171, 5], false, "", 0,
    true, 1024, true, true, ""⟩

/-- Streaming environment whose read stream errors instead of ending. -/
def envS_streamErr : EnvS := { envS_ok with streamEndsOk := false }

/-- Streaming environment where the tool exits 0 but wrote a 0-byte file. -/
def envS_zeroSize : EnvS := { envS_ok with fileSize := 0 }

/-- Streaming environment with a missing url field. -/
def envS_missingUrl : EnvS := { envS_ok with url := none }

/-- Streaming environment whose downloader exits with code 1. -/
def envS_exitFail : EnvS := { envS_ok with exitCode := 1 }

/-- Fully successful encoded-revision environment. -/
def envC_ok : EnvC :=
  ⟨true, true, some "https://example.com/v", true, "2025.02.19",
    "/usr/local/bin/yt-dlp", "", true, "", 42, true, "", true, 1024, "",
    true, "", true, "QUFBQQ"⟩

/-- Encoded-revision environment before initialization has finished. -/
def envC_notReady : EnvC := { envC_ok with ready := false, url := none }

/-- Encoded-revision environment whose download command fails, leaving a
partial file. -/
def envC_dlFail : EnvC := { envC_ok with dlOk := false }

/-- Encoded-revision environment where the tool exits 0 but wrote a
0-byte file. -/
def envC_emptyFile : EnvC := { envC_ok with fileSize := 0 }

/-- Encoded-revision environment whose file read (for base64 encoding)
fails. -/
def envC_readFail : EnvC := { envC_ok with readOk := false }

/-- Encoded-revision environment whose failed download captured
recognizable stderr text. -/
def envC_stderrLeak : EnvC :=
  { envC_ok with
    dlOk := false
    dlStderr := "RAW STDERR FROM THE TOOL"
    timestamp := 7 }

/-- Encoded-revision environment asking for the version special case. -/
def envC_version : EnvC := { envC_ok with url := some "version" }

/-- C4: for every successful download the artifact file is gone after
the response: the streaming revisions unlink it on the read stream end
event, and the encoded revision unlinks it after reading the file and
before sending the JSON body, as the effect traces show. -/
theorem claim_C4_success_cleanup :
    (∀ e : EnvS, urlMissing e.url = false → e.probeOk = true → e.spawnErr = false →
      e.exitCode = 0 → e.fileOnDisk = true → e.streamEndsOk = true →
      e.unlinkOk = true →
      (runA e).fileRemains = false ∧
      (runA e).events =
        [.spawnProbe, .spawnDownload, .writeHead, .streamEnd, .unlinkFile]) ∧
    (∀ e : EnvS, urlMissing e.url = false → e.probeOk = true → e.spawnErr = false →
      e.exitCode = 0 → e.fileOnDisk = true → e.streamEndsOk = true →
      e.unlinkOk = true →
      (runB e).fileRemains = false ∧
      (runB e).events =
        [.addSignalListeners, .spawnProbe, .spawnDownload, .writeHead,
          .streamEnd, .unlinkFile, .removeSignalListeners]) ∧
    (∀ e : EnvC, e.ready = true → urlMissing e.url = false →
      e.url ≠ some "version" → e.preCheckOk = true → e.dlOk = true →
      e.fileOnDisk = true → e.fileSize ≠ 0 → e.readOk = true → e.unlinkOk = true →
      (runC e).fileRemains = false ∧
      (runC e).events = [.spawnCheck, .spawnDownload, .unlinkFile, .respond]) := by
  refine ⟨?_, ?_, ?_⟩
  · intro e h1 h2 h3 h4 h5 h6 h7
    simp [runA, h1, h2, h3, h4, h5, h6, h7]
  · intro e h1 h2 h3 h4 h5 h6 h7
    simp [runB, h1, h2, h3, h4, h5, h6, h7]
  · intro e h1 h2 h3 h4 h5 h6 h7 h8 h9
    simp [runC, h1, h2, h3, h4, h5, h6, h7, h8, h9]

/-- C4 witness: the conjuncts instantiated on concrete environments. -/
theorem claim_C4_success_cleanup_witness :
    (runA envS_ok).fileRemains = false ∧ (runC envC_ok).fileRemains = false :=
  ⟨(claim_C4_success_cleanup.1 envS_ok (by decide) rfl rfl rfl rfl rfl rfl).1,
    (claim_C4_success_cleanup.2.2 envC_ok rfl (by decide) (by decide) rfl rfl rfl
      (by decide) rfl rfl).1⟩

/-- C6: in streaming mode a delivered artifact is written with status
200, content type video/mp4, an attachment content disposition with
the generated filename, and a Content-Length equal to the size the
stat call reported when streaming began. -/
theorem claim_C6_streaming_headers :
    (∀ e : EnvS, urlMissing e.url = false → e.probeOk = true → e.spawnErr = false →
      e.exitCode = 0 → e.fileOnDisk = true →
      statusS (runA e).resp = 200 ∧
      headersS (runA e).resp =
        some ⟨"video/mp4", e.fileSize,
          "attachment; filename=\"" ++ filenameA e.randBytes ++ "\""⟩) ∧
    (∀ e : EnvS, urlMissing e.url = false → e.probeOk = true → e.spawnErr = false →
      e.exitCode = 0 → e.fileOnDisk = true →
      statusS (runB e).resp = 200 ∧
      headersS (runB e).resp =
        some ⟨"video/mp4", e.fileSize,
          "attachment; filename=\"" ++ filenameA e.randBytes ++ "\""⟩) := by
  constructor
  · intro e h1 h2 h3 h4 h5
    cases h6 : e.streamEndsOk <;>
      simp [runA, h1, h2, h3, h4, h5, h6, statusS, headersS, contentDispositionA]
  · intro e h1 h2 h3 h4 h5
    cases h6 : e.streamEndsOk <;>
      simp [runB, h1, h2, h3, h4, h5, h6, statusS, headersS, contentDispositionA]

/-- C6 witness: headers of a concrete successful streaming request. -/
theorem claim_C6_streaming_headers_witness :
    statusS (runA envS_ok).resp = 200 :=
  (claim_C6_streaming_headers.1 envS_ok (by decide) rfl rfl rfl rfl).1

/-- C9: in the readiness-gated revision a request whose url field is
exactly the string version never spawns a download; once the server is
ready it answers 200 with the yt-dlp version, location and
executability, or 500 when yt-dlp cannot be verified. -/
theorem claim_C9_version_url :
    (∀ e : EnvC, e.url = some "version" → Ev.spawnDownload ∉ (runC e).events) ∧
    (∀ e : EnvC, e.ready = true → e.url = some "version" →
      (e.verOk = true → (runC e).resp = .versionInfo e.verStr e.locStr ∧
        statusC (runC e).resp = 200) ∧
      (e.verOk = false → (runC e).resp = .versionFail e.verErrMsg ∧
        statusC (runC e).resp = 500)) := by
  constructor
  · intro e h
    cases hr : e.ready
    · simp [runC, hr]
    · cases hv : e.verOk <;> simp [runC, hr, h, hv, urlMissing]
  · intro e hr h
    constructor
    · intro hv
      simp [runC, hr, h, hv, urlMissing, statusC]
    · intro hv
      simp [runC, hr, h, hv, urlMissing, statusC]

/-- C9 witness: concrete version request against the ready server. -/
theorem claim_C9_version_url_witness :
    (runC envC_version).resp = .versionInfo "2025.02.19" "/usr/local/bin/yt-dlp" :=
  ((claim_C9_version_url.2 envC_version rfl rfl).1 rfl).1

/-- C10: in the signal-handling revision every request first registers
the SIGTERM and SIGINT listeners, the 400 missing-url path never removes
them, and removal happens exactly on the stream-end and caught-error
paths. -/
theorem claim_C10_listener_leak :
    (∀ e : EnvS, (runB e).events.head? = some .addSignalListeners) ∧
    (∀ e : EnvS, urlMissing e.url = true →
      (runB e).resp = .badRequest ∧
      Ev.removeSignalListeners ∉ (runB e).events) ∧
    (∀ e : EnvS, Ev.removeSignalListeners ∈ (runB e).events ↔
      (urlMissing e.url = false ∧ (e.probeOk = false ∨ e.spawnErr = true ∨
        e.exitCode ≠ 0 ∨ e.fileOnDisk = false ∨ e.streamEndsOk = true))) := by
  refine ⟨?_, ?_, ?_⟩
  · intro e
    cases hu : urlMissing e.url <;> cases hp : e.probeOk <;>
      cases hs : e.spawnErr <;> by_cases hx : e.exitCode = 0 <;>
      cases hf : e.fileOnDisk <;> cases hst : e.streamEndsOk <;>
      simp [runB, hu, hp, hs, hx, hf, hst]
  · intro e hu
    simp [runB, hu]
  · intro e
    cases hu : urlMissing e.url <;> cases hp : e.probeOk <;>
      cases hs : e.spawnErr <;> by_cases hx : e.exitCode = 0 <;>
      cases hf : e.fileOnDisk <;> cases hst : e.streamEndsOk <;>
      simp [runB, hu, hp, hs, hx, hf, hst]

/-- C10 witness: the 400 path of a concrete request leaves the
listeners registered. -/
theorem claim_C10_listener_leak_witness :
    (runB envS_missingUrl).resp = .badRequest ∧
    Ev.removeSignalListeners ∉ (runB envS_missingUrl).events :=
  claim_C10_listener_leak.2.1 envS_missingUrl rfl

theorem urlMissing_version : urlMissing (some "version") = false := by decide

/-- C1 counterexample: after the output path is chosen, deletion is not
always attempted. In the baseline revision the stream-error path
performs no unlink and leaves the file, and in the encoded revision the
encode-error path performs no unlink and leaves the file. -/
theorem claim_C1_counterexample :
    (runA envS_streamErr).pathChosen = true ∧
    (runA envS_streamErr).fileRemains = true ∧
    unlinks (runA envS_streamErr).events = 0 ∧
    (runC envC_readFail).pathChosen = true ∧
    (runC envC_readFail).fileRemains = true ∧
    unlinks (runC envC_readFail).events = 0 := by decide

/-- C1 amended: when the output path was chosen and a file is on disk,
the signal-handling revision attempts deletion exactly once on every
code path; the baseline revision attempts it exactly once except on the
stream-error path, where it attempts none; the encoded revision
attempts it only on the full success path; in all three revisions a
deletion failure never changes the response. -/
theorem claim_C1_amended :
    (∀ e : EnvS, (runB e).pathChosen = true → e.fileOnDisk = true →
      unlinks (runB e).events = 1) ∧
    (∀ e : EnvS, (runB { e with unlinkOk := false }).resp =
      (runB { e with unlinkOk := true }).resp) ∧
    (∀ e : EnvS, (runA e).pathChosen = true → e.fileOnDisk = true →
      unlinks (runA e).events =
        (if e.spawnErr = false ∧ e.exitCode = 0 ∧ e.streamEndsOk = false
          then 0 else 1)) ∧
    (∀ e : EnvS, (runA { e with unlinkOk := false }).resp =
      (runA { e with unlinkOk := true }).resp) ∧
    (∀ e : EnvC, (runC e).pathChosen = true →
      unlinks (runC e).events =
        (if e.dlOk = true ∧ e.fileOnDisk = true ∧ e.fileSize ≠ 0 ∧ e.readOk = true
          then 1 else 0)) ∧
    (∀ e : EnvC, (runC { e with unlinkOk := false }).resp =
      (runC { e with unlinkOk := true }).resp) := by
  refine ⟨?_, ?_, ?_, ?_, ?_, ?_⟩
  · intro e hp hf
    revert hp
    cases hu : urlMissing e.url <;> cases hpo : e.probeOk <;>
      cases hs : e.spawnErr <;> by_cases hx : e.exitCode = 0 <;>
      cases hst : e.streamEndsOk <;>
      simp [runB, hu, hpo, hs, hx, hf, hst, unlinks]
  · intro e
    cases hu : urlMissing e.url <;> cases hpo : e.probeOk <;>
      cases hs : e.spawnErr <;> by_cases hx : e.exitCode = 0 <;>
      cases hf : e.fileOnDisk <;> cases hst : e.streamEndsOk <;>
      simp [runB, hu, hpo, hs, hx, hf, hst]
  · intro e hp hf
    revert hp
    cases hu : urlMissing e.url <;> cases hpo : e.probeOk <;>
      cases hs : e.spawnErr <;> by_cases hx : e.exitCode = 0 <;>
      cases hst : e.streamEndsOk <;>
      simp [runA, hu, hpo, hs, hx, hf, hst, unlinks]
  · intro e
    cases hu : urlMissing e.url <;> cases hpo : e.probeOk <;>
      cases hs : e.spawnErr <;> by_cases hx : e.exitCode = 0 <;>
      cases hf : e.fileOnDisk <;> cases hst : e.streamEndsOk <;>
      simp [runA, hu, hpo, hs, hx, hf, hst]
  · intro e hp
    revert hp
    cases hr : e.ready <;> cases hu : urlMissing e.url <;>
      by_cases hv : e.url = some "version" <;> cases hve : e.verOk <;>
      cases hpc : e.preCheckOk <;>
      cases hd : e.dlOk <;> cases hf : e.fileOnDisk <;>
      by_cases hz : e.fileSize = 0 <;> cases hro : e.readOk <;>
      simp [runC, hr, hu, hv, hve, hpc, hd, hf, hz, hro, unlinks, urlMissing_version]
  · intro e
    cases hr : e.ready <;> cases hu : urlMissing e.url <;>
      by_cases hv : e.url = some "version" <;> cases hve : e.verOk <;>
      cases hpc : e.preCheckOk <;> cases hd : e.dlOk <;>
      cases hf : e.fileOnDisk <;> by_cases hz : e.fileSize = 0 <;>
      cases hro : e.readOk <;>
      simp [runC, hr, hu, hv, hve, hpc, hd, hf, hz, hro, urlMissing_version]

/-- C1 amended witness: the signal-handling revision on a concrete
successful request unlinks exactly once. -/
theorem claim_C1_amended_witness :
    unlinks (runB envS_ok).events = 1 :=
  claim_C1_amended.1 envS_ok (by decide) rfl

/-- C2 counterexample: when the tool exits 0 but wrote a 0-byte file,
the encoded revision answers 500 yet leaves the temp file on disk, and
the baseline streaming revision answers 200, because it verifies only
existence, not size. -/
theorem claim_C2_counterexample :
    statusC (runC envC_emptyFile).resp = 500 ∧
    (runC envC_emptyFile).resp = .verifyFail "Downloaded file is empty" ∧
    (runC envC_emptyFile).fileRemains = true ∧
    unlinks (runC envC_emptyFile).events = 0 ∧
    statusS (runA envS_zeroSize).resp = 200 := by decide

/-- C2 amended: only the encoded revision rejects a zero-size artifact,
answering 500 with the empty-file verification error, but it leaves the
temp file on disk; the streaming revisions verify only existence, so a
zero-size artifact is streamed as a 200 response with Content-Length 0. -/
theorem claim_C2_amended :
    (∀ e : EnvC, e.ready = true → urlMissing e.url = false →
      e.url ≠ some "version" → e.preCheckOk = true → e.dlOk = true →
      e.fileOnDisk = true → e.fileSize = 0 →
      (runC e).resp = .verifyFail "Downloaded file is empty" ∧
      statusC (runC e).resp = 500 ∧ (runC e).fileRemains = true ∧
      unlinks (runC e).events = 0) ∧
    (∀ e : EnvS, urlMissing e.url = false → e.probeOk = true →
      e.spawnErr = false → e.exitCode = 0 → e.fileOnDisk = true →
      e.fileSize = 0 → e.streamEndsOk = true →
      (runA e).resp = .streamOk ⟨"video/mp4", 0, contentDispositionA e.randBytes⟩ ∧
      statusS (runA e).resp = 200) ∧
    (∀ e : EnvS, urlMissing e.url = false → e.probeOk = true →
      e.spawnErr = false → e.exitCode = 0 → e.fileOnDisk = true →
      e.fileSize = 0 → e.streamEndsOk = true →
      (runB e).resp = .streamOk ⟨"video/mp4", 0, contentDispositionA e.randBytes⟩ ∧
      statusS (runB e).resp = 200) := by
  refine ⟨?_, ?_, ?_⟩
  · intro e h1 h2 h3 h4 h5 h6 h7
    simp [runC, h1, h2, h3, h4, h5, h6, h7, statusC, unlinks]
  · intro e h1 h2 h3 h4 h5 h6 h7
    simp [runA, h1, h2, h3, h4, h5, h6, h7, statusS]
  · intro e h1 h2 h3 h4 h5 h6 h7
    simp [runB, h1, h2, h3, h4, h5, h6, h7, statusS]

/-- C2 amended witness: the three conjuncts on concrete environments. -/
theorem claim_C2_amended_witness :
    (runC envC_emptyFile).fileRemains = true ∧
    statusS (runA envS_zeroSize).resp = 200 ∧
    statusS (runB envS_zeroSize).resp = 200 :=
  ⟨(claim_C2_amended.1 envC_emptyFile rfl (by decide) (by decide) rfl rfl rfl
      rfl).2.2.1,
    (claim_C2_amended.2.1 envS_zeroSize (by decide) rfl rfl rfl rfl rfl rfl).2,
    (claim_C2_amended.2.2 envS_zeroSize (by decide) rfl rfl rfl rfl rfl rfl).2⟩

/-- C3 counterexample: in the encoded revision a failed download
command leaves the partial artifact on disk with no unlink attempted,
even though the response is a 500. -/
theorem claim_C3_counterexample :
    statusC (runC envC_dlFail).resp = 500 ∧
    (runC envC_dlFail).fileRemains = true ∧
    unlinks (runC envC_dlFail).events = 0 := by decide

/-- C3 amended: in the streaming revisions a non-zero downloader exit
yields a 500 JSON error with no binary body and, when the unlink call
succeeds, no artifact left on disk; in the encoded revision the same
failure also yields a 500 JSON error but performs no cleanup, so a
partial file remains on disk exactly when the tool left one. -/
theorem claim_C3_amended :
    (∀ e : EnvS, urlMissing e.url = false → e.probeOk = true →
      e.spawnErr = false → e.exitCode ≠ 0 → e.unlinkOk = true →
      (runA e).resp = .serverError ("Process exited with code " ++ toString e.exitCode) ∧
      statusS (runA e).resp = 500 ∧ isJsonS (runA e).resp = true ∧
      (runA e).fileRemains = false) ∧
    (∀ e : EnvS, urlMissing e.url = false → e.probeOk = true →
      e.spawnErr = false → e.exitCode ≠ 0 → e.unlinkOk = true →
      (runB e).resp = .serverError ("Process exited with code " ++ toString e.exitCode) ∧
      statusS (runB e).resp = 500 ∧ isJsonS (runB e).resp = true ∧
      (runB e).fileRemains = false) ∧
    (∀ e : EnvC, e.ready = true → urlMissing e.url = false →
      e.url ≠ some "version" → e.preCheckOk = true → e.dlOk = false →
      statusC (runC e).resp = 500 ∧ (runC e).fileRemains = e.fileOnDisk ∧
      unlinks (runC e).events = 0) := by
  refine ⟨?_, ?_, ?_⟩
  · intro e h1 h2 h3 h4 h5
    cases hf : e.fileOnDisk <;>
      simp [runA, h1, h2, h3, h4, h5, hf, statusS, isJsonS]
  · intro e h1 h2 h3 h4 h5
    cases hf : e.fileOnDisk <;>
      simp [runB, h1, h2, h3, h4, h5, hf, statusS, isJsonS]
  · intro e h1 h2 h3 h4 h5
    simp [runC, h1, h2, h3, h4, h5, statusC, unlinks]

/-- C3 amended witness: a concrete exit-code-1 request against the
baseline revision. -/
theorem claim_C3_amended_witness :
    statusS (runA envS_exitFail).resp = 500 ∧ (runA envS_exitFail).fileRemains = false :=
  ⟨(claim_C3_amended.1 envS_exitFail (by decide) rfl rfl (by decide) rfl).2.1,
    (claim_C3_amended.1 envS_exitFail (by decide) rfl rfl (by decide) rfl).2.2.2⟩

/-- C5 counterexample: before initialization completes, the
readiness-gated revision answers 503, not 400, to a request with a
missing url, after spawning a yt-dlp presence check. -/
theorem claim_C5_counterexample :
    urlMissing envC_notReady.url = true ∧
    statusC (runC envC_notReady).resp = 503 ∧
    (runC envC_notReady).events = [.spawnCheck, .respond] := by decide

/-- C5 amended: in the baseline and signal-handling revisions, and in
the readiness-gated revision once the server is ready, a missing or
empty url yields a 400 with no subprocess spawned; before
initialization completes the readiness-gated revision answers 503 to
every request, including one with a missing url, after spawning a
yt-dlp presence check. -/
theorem claim_C5_amended :
    (∀ e : EnvS, urlMissing e.url = true →
      (runA e).resp = .badRequest ∧ (runA e).events = [.respond]) ∧
    (∀ e : EnvS, urlMissing e.url = true →
      (runB e).resp = .badRequest ∧
      (runB e).events = [.addSignalListeners, .respond]) ∧
    (∀ e : EnvC, e.ready = true → urlMissing e.url = true →
      (runC e).resp = .badRequest ∧ (runC e).events = [.respond]) ∧
    (∀ e : EnvC, e.ready = false →
      statusC (runC e).resp = 503 ∧ (runC e).events = [.spawnCheck, .respond]) := by
  refine ⟨?_, ?_, ?_, ?_⟩
  · intro e h
    simp [runA, h]
  · intro e h
    simp [runB, h]
  · intro e h1 h2
    simp [runC, h1, h2]
  · intro e h
    simp [runC, h, statusC]

/-- C5 amended witness: concrete missing-url requests. -/
theorem claim_C5_amended_witness :
    (runA envS_missingUrl).resp = .badRequest ∧
    statusC (runC envC_notReady).resp = 503 :=
  ⟨(claim_C5_amended.1 envS_missingUrl rfl).1,
    (claim_C5_amended.2.2.2 envC_notReady rfl).1⟩

/-- First request of the C7 collision pair. -/
def reqOne : ReqMeta := ⟨"https://a.example/v1", 42, [0]⟩

/-- Second request of the C7 collision pair: a different request (other
url, other random draw) whose Date.now() reading falls in the same
millisecond. -/
def reqTwo : ReqMeta := ⟨"https://b.example/v2", 42, [1]⟩

/-- C7 counterexample: two distinct requests served by the encoded
revision in the same millisecond derive the same artifact path, so the
derived paths of distinct requests are not always distinct. -/
theorem claim_C7_counterexample :
    reqOne ≠ reqTwo ∧ reqPathC reqOne = reqPathC reqTwo := by decide

/-- C7 amended: the artifact path depends only on the sampled
randomness or timestamp, and is injective in it: in the streaming
revisions two requests whose 16 random bytes differ get distinct paths,
and in the encoded revision two requests whose Date.now() readings
differ get distinct paths; requests that share that sample (same
millisecond in the encoded revision) receive the same path. -/
theorem claim_C7_amended :
    (∀ b1 b2 : List Nat, (∀ x ∈ b1, x < 256) → (∀ x ∈ b2, x < 256) →
      b1 ≠ b2 → outputPathA b1 ≠ outputPathA b2) ∧
    (∀ t1 t2 : Nat, t1 ≠ t2 → tempFilePathC t1 ≠ tempFilePathC t2) := by
  constructor
  · intro b1 b2 h1 h2 hne heq
    apply hne
    have hd : outputPathCharsA b1 = outputPathCharsA b2 :=
      congrArg String.data heq
    rw [outputPathCharsA, outputPathCharsA] at hd
    have hf : filenameCharsA b1 = filenameCharsA b2 :=
      List.append_cancel_left hd
    rw [filenameCharsA, filenameCharsA] at hf
    exact hexRender_injective h1 h2 (List.append_cancel_right hf)
  · intro t1 t2 hne heq
    apply hne
    have hd : tempFilePathCharsC t1 = tempFilePathCharsC t2 :=
      congrArg String.data heq
    rw [tempFilePathCharsC, tempFilePathCharsC] at hd
    exact decRender_injective (by simpa using hd)

/-- C7 amended witness: concrete distinct samples give distinct paths. -/
theorem claim_C7_amended_witness :
    outputPathA [0] ≠ outputPathA [1] ∧ tempFilePathC 42 ≠ tempFilePathC 43 :=
  ⟨claim_C7_amended.1 [0] [1] (by decide) (by decide) (by decide),
    claim_C7_amended.2 42 43 (by decide)⟩

/-- C8 counterexample: in the encoded revision a failed download is
answered with a details field equal to the exec error message, which
carries the downloader's raw stderr verbatim (and the full command
line as a separate field). -/
theorem claim_C8_counterexample :
    statusC (runC envC_stderrLeak).resp = 500 ∧
    detailsC (runC envC_stderrLeak).resp =
      some (execFailMsg (commandC "https://example.com/v" 7)
        "RAW STDERR FROM THE TOOL") ∧
    occursIn "RAW STDERR FROM THE TOOL".data
      (execFailMsg (commandC "https://example.com/v" 7)
        "RAW STDERR FROM THE TOOL").data = true := by decide

/-- C8 amended: the streaming revisions never expose process stderr -
their responses are unchanged under any stderr contents, the probe
failure message and download failure message being fixed strings; the
encoded revision instead answers a failed download with a details field
equal to the caught exec error message, inside which the raw stderr
occurs verbatim. -/
theorem claim_C8_amended :
    (∀ e : EnvS, ∀ s1 s2 : String,
      (runA { e with probeStderr := s1, dlStderr := s2 }).resp = (runA e).resp) ∧
    (∀ e : EnvS, ∀ s1 s2 : String,
      (runB { e with probeStderr := s1, dlStderr := s2 }).resp = (runB e).resp) ∧
    (∀ e : EnvC, e.ready = true → urlMissing e.url = false →
      e.url ≠ some "version" → e.preCheckOk = true → e.dlOk = false →
      (runC e).resp =
        .dlFail (execFailMsg (commandC (e.url.getD "") e.timestamp) e.dlStderr)
          (commandC (e.url.getD "") e.timestamp) ∧
      occursIn e.dlStderr.data
        (execFailMsg (commandC (e.url.getD "") e.timestamp) e.dlStderr).data
        = true) := by
  refine ⟨?_, ?_, ?_⟩
  · intro e s1 s2
    cases hu : urlMissing e.url <;> cases hpo : e.probeOk <;>
      cases hs : e.spawnErr <;> by_cases hx : e.exitCode = 0 <;>
      cases hf : e.fileOnDisk <;> cases hst : e.streamEndsOk <;>
      simp [runA, hu, hpo, hs, hx, hf, hst]
  · intro e s1 s2
    cases hu : urlMissing e.url <;> cases hpo : e.probeOk <;>
      cases hs : e.spawnErr <;> by_cases hx : e.exitCode = 0 <;>
      cases hf : e.fileOnDisk <;> cases hst : e.streamEndsOk <;>
      simp [runB, hu, hpo, hs, hx, hf, hst]
  · intro e h1 h2 h3 h4 h5
    refine ⟨by simp [runC, h1, h2, h3, h4, h5], ?_⟩
    rw [execFailMsg, String.data_append]
    exact occursIn_append_self _ _

/-- C8 amended witness: the conjuncts on concrete inputs. -/
theorem claim_C8_amended_witness :
    (runC envC_stderrLeak).resp =
      .dlFail (execFailMsg (commandC "https://example.com/v" 7)
        "RAW STDERR FROM THE TOOL") (commandC "https://example.com/v" 7) :=
  (claim_C8_amended.2.2 envC_stderrLeak rfl (by decide) (by decide) rfl rfl).1
